import Mathlib

/-!
Formal model of the cogniStruct docking-layout subsystem.

The development embeds the layout code of the repository: the sidebar module
(`Sidebar`, `addCard`, `removeCard`, `moveCardToSidebar`, `handleDrop`, the
sidebar `createComponent` option and the sidebar mount/cleanup handlers) and
the center dock module (`DockLayout`, `addPanel`, `closePanel`, the dock
`createComponent` option and the dock cleanup handler).

The underlying `dockview-core` library is external to the repository; its
collection operations are modelled with their standard semantics: a paneview
or dockview holds an ordered list of panels, `getPanel` is a first-match
lookup by id, `addPanel` inserts a freshly constructed panel (at a clamped
index or at the end) without any duplicate check, and `removePanel` erases
the first panel with the given panel's id and is a no-op when it is absent.
-/

namespace CogniStruct

/-- Opaque parameter bag (`Record<string, any>` in the source), modelled as an
association list from string keys to string values. -/
abbrev Params := List (String × String)

/-- Sidebar position, the source union type `'left' | 'right'`. -/
inductive Pos where
  | left
  | right
deriving DecidableEq

/-- Opposite sidebar position. -/
def Pos.other : Pos → Pos
  | .left => .right
  | .right => .left

/-- Overwrite the binding of key `k` in an association list; models
`Map.set(k, v)` on the window-global maps. -/
def mapSet (m : List (String × α)) (k : String) (v : α) : List (String × α) :=
  (k, v) :: m.filter (fun e => e.1 != k)

/-- Panel of a sidebar surface: id, component-type key (`component`), title,
expanded flag and declared size, as carried by the paneview. -/
structure Panel where
  id : String
  ptype : String
  title : String
  expanded : Bool
  size : Option Nat
deriving DecidableEq

/-- Options accepted by the library-level `PaneviewComponent.addPanel`. -/
structure AddPanelOptions where
  id : String
  component : String
  title : String
  isExpanded : Bool
  size : Option Nat
  index : Option Nat
deriving DecidableEq

/-- Model of a live `PaneviewComponent`: the ordered panel sequence of one
sidebar surface. -/
structure Paneview where
  panels : List Panel
deriving DecidableEq

/-- Library lookup `paneview.getPanel(id)`: first panel with the id. -/
def Paneview.getPanel (pv : Paneview) (id : String) : Option Panel :=
  pv.panels.find? (fun p => p.id == id)

/-- Library `paneview.addPanel(options)`: constructs the panel from the options
and inserts it at the clamped index, or appends it; no duplicate check. -/
def Paneview.addPanel (pv : Paneview) (o : AddPanelOptions) : Paneview :=
  let p : Panel := ⟨o.id, o.component, o.title, o.isExpanded, o.size⟩
  match o.index with
  | none => ⟨pv.panels ++ [p]⟩
  | some i => ⟨pv.panels.insertIdx (min i pv.panels.length) p⟩

/-- Library `paneview.removePanel(panel)`: erases the first panel carrying the
given panel's id; a no-op when no such panel is present. -/
def Paneview.removePanel (pv : Paneview) (p : Panel) : Paneview :=
  ⟨pv.panels.eraseP (fun q => q.id == p.id)⟩

/-- Drag-session slot `window.__sidebarDragData`. -/
structure SidebarDragData where
  cardId : String
  fromPosition : Pos
deriving DecidableEq

/-- Window-global sidebar state: the `__paneviewApis` registry (one optional
paneview per position), the `__paneviewCardTypes` map, the per-position
`__paneviewCardParams` maps and the `__sidebarDragData` slot. -/
structure SidebarState where
  leftApi : Option Paneview
  rightApi : Option Paneview
  cardTypes : List (String × String)
  leftParams : List (String × Params)
  rightParams : List (String × Params)
  drag : Option SidebarDragData
deriving DecidableEq

/-- Registry lookup `getPaneviewApi(position)`. -/
def SidebarState.api (s : SidebarState) : Pos → Option Paneview
  | .left => s.leftApi
  | .right => s.rightApi

/-- Store a live paneview under a position id, modelling in-place mutation of
the paneview object the registry points to. -/
def SidebarState.setApi (s : SidebarState) : Pos → Paneview → SidebarState
  | .left, pv => ⟨some pv, s.rightApi, s.cardTypes, s.leftParams, s.rightParams, s.drag⟩
  | .right, pv => ⟨s.leftApi, some pv, s.cardTypes, s.leftParams, s.rightParams, s.drag⟩

/-- Per-position card-params map `getCardParamsMap(position)`. -/
def SidebarState.params (s : SidebarState) : Pos → List (String × Params)
  | .left => s.leftParams
  | .right => s.rightParams

/-- Replace one position's card-params map. -/
def SidebarState.setParams (s : SidebarState) : Pos → List (String × Params) → SidebarState
  | .left, m => ⟨s.leftApi, s.rightApi, s.cardTypes, m, s.rightParams, s.drag⟩
  | .right, m => ⟨s.leftApi, s.rightApi, s.cardTypes, s.leftParams, m, s.drag⟩

/-- Replace the global card-type map. -/
def SidebarState.setCardTypes (s : SidebarState) (m : List (String × String)) : SidebarState :=
  ⟨s.leftApi, s.rightApi, m, s.leftParams, s.rightParams, s.drag⟩

/-- Explicit panel-API call performed by the repository code beyond the
structural insertion or removal itself; `setActive` records a call of
`existing.api.setActive()`. -/
inductive Action where
  | setActive (id : String)
deriving DecidableEq

/-- Options of the exported sidebar `addCard` function. -/
structure AddCardOptions where
  id : Option String
  title : Option String
  params : Option Params
  expanded : Option Bool
  size : Option Nat
  index : Option Nat
deriving DecidableEq

/-- Exported `addCard(position, type, options)` of the sidebar module. The
`genId` argument stands for the generated default id
`` `${type}-${Date.now()}` `` used when `options.id` is absent. Returns the
updated state, the returned panel and the explicit panel-API calls made. -/
def addCard (s : SidebarState) (pos : Pos) (type : String) (opts : AddCardOptions)
    (genId : String) : SidebarState × Option Panel × List Action :=
  match s.api pos with
  | none => (s, none, [])
  | some pv =>
      let cardId := (opts.id).getD genId
      match pv.getPanel cardId with
      | some existing => (s, some existing, [])
      | none =>
          let s1 : SidebarState :=
            match opts.params with
            | some ps => s.setParams pos (mapSet (s.params pos) cardId ps)
            | none => s
          let s2 := s1.setCardTypes (mapSet s1.cardTypes cardId type)
          let added : Panel :=
            ⟨cardId, type, (opts.title).getD type, (opts.expanded) != some false, opts.size⟩
          let s3 := s2.setApi pos
            (pv.addPanel ⟨cardId, type, (opts.title).getD type,
              (opts.expanded) != some false, opts.size, opts.index⟩)
          (s3, some added, [])

/-- Exported `removeCard(position, panel)` of the sidebar module: delegates to
the library `removePanel`; a no-op when the sidebar is not registered. -/
def removeCard (s : SidebarState) (pos : Pos) (panel : Panel) : SidebarState :=
  match s.api pos with
  | none => s
  | some pv => s.setApi pos (pv.removePanel panel)

/-- Exported `moveCardToSidebar(cardId, fromPosition, toPosition, options)`:
guards, snapshot (`component` from the card-type map with the card id as
fallback, `title := cardId`, the panel's expanded flag and size), removal from
the source, then addition to the target. Returns the updated state and the
boolean result. -/
def moveCardToSidebar (s : SidebarState) (cardId : String) (fromPos toPos : Pos)
    (optIndex : Option Nat) : SidebarState × Bool :=
  if fromPos = toPos then (s, false)
  else
    match s.api fromPos, s.api toPos with
    | some fromPv, some toPv =>
        match fromPv.getPanel cardId with
        | none => (s, false)
        | some panel =>
            let component := ((s.cardTypes).lookup cardId).getD cardId
            let title := cardId
            let isExpanded := panel.expanded
            let size := panel.size
            let s1 := s.setApi fromPos (fromPv.removePanel panel)
            let s2 := s1.setApi toPos
              (toPv.addPanel ⟨cardId, component, title, isExpanded, size, optIndex⟩)
            (s2, true)
    | _, _ => (s, false)

/-- Native `drop` handler installed on a sidebar container: when the drag slot
is populated and names a different source position, it invokes
`moveCardToSidebar` and clears the slot; otherwise it does nothing and the
event falls through to the paneview's own same-surface handling. The boolean
result records whether migration was invoked. -/
def handleDrop (s : SidebarState) (pos : Pos) : SidebarState × Bool :=
  match s.drag with
  | some d =>
      if d.fromPosition ≠ pos then
        let s1 := (moveCardToSidebar s d.cardId d.fromPosition pos none).1
        (⟨s1.leftApi, s1.rightApi, s1.cardTypes, s1.leftParams, s1.rightParams, none⟩, true)
      else (s, false)
  | none => (s, false)

/-- Cleanup handler of the `Sidebar` component: it disconnects the resize
observer and removes the container's DOM drag listeners only; it neither
disposes the paneview nor touches `window.__paneviewApis`, so on the modelled
registry state it is the identity. -/
def sidebarOnCleanup (s : SidebarState) : SidebarState := s

/-- Mount handler of the `Sidebar` component restricted to its effect on the
registry: when an instance for the position already exists it is reused and
the registry is untouched (HMR path); otherwise a fresh paneview (already
carrying its initial layout) is created and stored. -/
def sidebarOnMount (s : SidebarState) (pos : Pos) (fresh : Paneview) : SidebarState :=
  match s.api pos with
  | some _ => s
  | none => s.setApi pos fresh

/-- Exported `getCardPosition(cardId)`. -/
def getCardPosition (s : SidebarState) (cardId : String) : Option Pos :=
  match s.api .left with
  | some pv => if (pv.getPanel cardId).isSome then some .left else
      match s.api .right with
      | some pv2 => if (pv2.getPanel cardId).isSome then some .right else none
      | none => none
  | none =>
      match s.api .right with
      | some pv2 => if (pv2.getPanel cardId).isSome then some .right else none
      | none => none

/-- Serialized sidebar layout `sidebarToJSON(position)`, restricted to the
panel sequence it captures. -/
def sidebarToJSON (s : SidebarState) (pos : Pos) : Option (List Panel) :=
  (s.api pos).map Paneview.panels

/-- Panel of the center dock surface. -/
structure DockPanel where
  id : String
  component : String
  title : String
deriving DecidableEq

/-- Model of a live `DockviewComponent`: the panel collection of the center
surface. -/
structure Dockview where
  panels : List DockPanel
deriving DecidableEq

/-- Library `dockview.getPanel(id)`. -/
def Dockview.getPanel (dv : Dockview) (id : String) : Option DockPanel :=
  dv.panels.find? (fun p => p.id == id)

/-- Library `dockview.addPanel(options)`: appends the new panel. -/
def Dockview.addPanel (dv : Dockview) (p : DockPanel) : Dockview :=
  ⟨dv.panels ++ [p]⟩

/-- Removal of a dock panel by id (`panel.api.close()`), a no-op when the id
is absent. -/
def Dockview.removePanelId (dv : Dockview) (id : String) : Dockview :=
  ⟨dv.panels.eraseP (fun q => q.id == id)⟩

/-- Window-global dock state: `window.__dockviewApi` and
`window.__dockviewPanelParams`. -/
structure DockState where
  api : Option Dockview
  panelParams : List (String × Params)
deriving DecidableEq

/-- Options of the exported dock `addPanel` function. -/
structure DockAddOptions where
  id : Option String
  title : Option String
  params : Option Params
deriving DecidableEq

namespace DockLayout

/-- Exported `getPanel(id)` of the dock module. -/
def getPanel (s : DockState) (id : String) : Option DockPanel :=
  s.api.bind (fun dv => dv.getPanel id)

/-- Exported `addPanel(type, options)` of the dock module; `genId` stands for
the generated default id. When the id already exists, the existing panel is
returned and `existing.api.setActive()` is called, with no structural change. -/
def addPanel (s : DockState) (type : String) (opts : DockAddOptions)
    (genId : String) : DockState × Option DockPanel × List Action :=
  match s.api with
  | none => (s, none, [])
  | some dv =>
      let panelId := (opts.id).getD genId
      match dv.getPanel panelId with
      | some existing => (s, some existing, [Action.setActive existing.id])
      | none =>
          let s1 : DockState :=
            match opts.params with
            | some ps => ⟨s.api, mapSet s.panelParams panelId ps⟩
            | none => s
          let p : DockPanel := ⟨panelId, type, (opts.title).getD type⟩
          (⟨some (dv.addPanel p), s1.panelParams⟩, some p, [])

/-- Exported `closePanel(id)` of the dock module: looks the panel up and closes
it; does nothing when the id is absent. -/
def closePanel (s : DockState) (id : String) : DockState :=
  match getPanel s id with
  | none => s
  | some p => ⟨s.api.map (fun dv => dv.removePanelId p.id), s.panelParams⟩

/-- Serialized dock layout `toJSON()`, restricted to the panel collection it
captures. -/
def toJSON (s : DockState) : Option (List DockPanel) :=
  s.api.map Dockview.panels

/-- Cleanup handler of the `DockLayout` component: disposes the dockview and
clears `window.__dockviewApi` via `setDockviewApi(null)`. -/
def onCleanup (s : DockState) : DockState :=
  match s.api with
  | none => s
  | some _ => ⟨none, s.panelParams⟩

end DockLayout

/-- Outcome of a `createComponent` factory call: a content renderer for a
registered type key invoked with the given props, a placeholder element, or a
thrown error. -/
inductive RenderResult where
  | content (typeKey : String) (props : Params)
  | placeholder (message : String)
  | thrown (message : String)
deriving DecidableEq

/-- Dock `createComponent` option: looks the factory up under the component
name; if absent it logs and returns a placeholder renderer showing
`Unknown panel: <name>`; otherwise it renders the factory applied to the
params stored for the panel id (empty when none are stored). -/
def dockCreateComponent (registered : List String) (paramsMap : List (String × Params))
    (panelId name : String) : RenderResult :=
  if name ∈ registered then
    .content name ((paramsMap.lookup panelId).getD [])
  else
    .placeholder ("Unknown panel: " ++ name)

/-- Sidebar `createComponent` option: uses the factory registered under the
component name, falling back to the factory registered under `default`; when
neither exists it throws `Card component not found: <name>`. A found factory
is invoked with the empty props object. -/
def sidebarCreateComponent (registered : List String) (name : String) : RenderResult :=
  if name ∈ registered then .content name []
  else if "default" ∈ registered then .content "default" []
  else .thrown ("Card component not found: " ++ name)

/-- Number of elements of `l` whose id (under `f`) is `id`. -/
def cntBy (f : α → String) (id : String) (l : List α) : Nat :=
  (l.filter (fun a => f a == id)).length

/-- Number of panels with the given id on one sidebar surface. -/
def posCount (s : SidebarState) (pos : Pos) (id : String) : Nat :=
  match s.api pos with
  | none => 0
  | some pv => cntBy Panel.id id pv.panels

/-- Number of panels with the given id across both sidebar surfaces. -/
def totalCount (s : SidebarState) (id : String) : Nat :=
  posCount s .left id + posCount s .right id

/-- Global uniqueness invariant: every card id lives on at most one sidebar,
and at most once there. -/
def GlobalUnique (s : SidebarState) : Prop :=
  ∀ id, totalCount s id ≤ 1

/-- Per-surface uniqueness: no sidebar's own sequence repeats an id. -/
def PerSurfaceUnique (s : SidebarState) : Prop :=
  ∀ pos id, posCount s pos id ≤ 1

/-! Helper lemmas about the registry accessors. -/

@[simp]
theorem api_setApi_self (s : SidebarState) (pos : Pos) (pv : Paneview) :
    (s.setApi pos pv).api pos = some pv := by
  cases pos <;> rfl

theorem api_setApi_of_ne (s : SidebarState) {pos pos' : Pos} (pv : Paneview)
    (h : pos ≠ pos') : (s.setApi pos pv).api pos' = s.api pos' := by
  cases pos <;> cases pos' <;> first | rfl | exact absurd rfl h

@[simp]
theorem cardTypes_setApi (s : SidebarState) (pos : Pos) (pv : Paneview) :
    (s.setApi pos pv).cardTypes = s.cardTypes := by
  cases pos <;> rfl

@[simp]
theorem drag_setApi (s : SidebarState) (pos : Pos) (pv : Paneview) :
    (s.setApi pos pv).drag = s.drag := by
  cases pos <;> rfl

@[simp]
theorem params_setApi (s : SidebarState) (pos pos' : Pos) (pv : Paneview) :
    (s.setApi pos pv).params pos' = s.params pos' := by
  cases pos <;> cases pos' <;> rfl

@[simp]
theorem params_setParams_self (s : SidebarState) (pos : Pos) (m : List (String × Params)) :
    (s.setParams pos m).params pos = m := by
  cases pos <;> rfl

@[simp]
theorem api_setParams (s : SidebarState) (pos pos' : Pos) (m : List (String × Params)) :
    (s.setParams pos m).api pos' = s.api pos' := by
  cases pos <;> cases pos' <;> rfl

@[simp]
theorem cardTypes_setParams (s : SidebarState) (pos : Pos) (m : List (String × Params)) :
    (s.setParams pos m).cardTypes = s.cardTypes := by
  cases pos <;> rfl

@[simp]
theorem api_setCardTypes (s : SidebarState) (m : List (String × String)) (pos : Pos) :
    (s.setCardTypes m).api pos = s.api pos := by
  cases pos <;> rfl

@[simp]
theorem params_setCardTypes (s : SidebarState) (m : List (String × String)) (pos : Pos) :
    (s.setCardTypes m).params pos = s.params pos := by
  cases pos <;> rfl

theorem setApi_eq_self (s : SidebarState) (pos : Pos) (pv : Paneview)
    (h : s.api pos = some pv) : s.setApi pos pv = s := by
  cases s
  cases pos <;> simp only [SidebarState.api] at h <;> simp [SidebarState.setApi, h]

/-! Helper lemmas about id counting. -/

theorem cntBy_nil (f : α → String) (id : String) : cntBy f id [] = 0 := rfl

theorem cntBy_cons (f : α → String) (id : String) (a : α) (l : List α) :
    cntBy f id (a :: l) = (if f a == id then 1 else 0) + cntBy f id l := by
  by_cases h : f a = id
  · simp [cntBy, List.filter_cons, h]
    omega
  · simp [cntBy, List.filter_cons, h]

theorem cntBy_append (f : α → String) (id : String) (l₁ l₂ : List α) :
    cntBy f id (l₁ ++ l₂) = cntBy f id l₁ + cntBy f id l₂ := by
  simp [cntBy, List.filter_append]

theorem cntBy_eq_zero_of_find?_eq_none (f : α → String) (id : String) (l : List α)
    (h : l.find? (fun a => f a == id) = none) : cntBy f id l = 0 := by
  rw [List.find?_eq_none] at h
  simp only [cntBy, List.length_eq_zero, List.filter_eq_nil_iff]
  exact h

theorem find?_eq_none_of_cntBy_eq_zero (f : α → String) (id : String) (l : List α)
    (h : cntBy f id l = 0) : l.find? (fun a => f a == id) = none := by
  simp only [cntBy, List.length_eq_zero, List.filter_eq_nil_iff] at h
  rw [List.find?_eq_none]
  exact h

theorem cntBy_eraseP_of_find?_eq_some (f : α → String) (id : String) (l : List α) (x : α)
    (h : l.find? (fun a => f a == id) = some x) :
    cntBy f id (l.eraseP (fun a => f a == id)) + 1 = cntBy f id l := by
  induction l with
  | nil => simp at h
  | cons a t ih =>
      by_cases ha : f a = id
      · rw [List.eraseP_cons_of_pos (by simp [ha]), cntBy_cons]
        simp [ha, Nat.add_comm]
      · rw [List.eraseP_cons_of_neg (by simp [ha]), cntBy_cons, cntBy_cons]
        rw [List.find?_cons_of_neg _ (by simp [ha])] at h
        have := ih h
        simp [ha]
        omega

theorem cntBy_eraseP_of_ne (f : α → String) (id id' : String) (l : List α)
    (h : id' ≠ id) :
    cntBy f id' (l.eraseP (fun a => f a == id)) = cntBy f id' l := by
  induction l with
  | nil => rfl
  | cons a t ih =>
      by_cases ha : f a = id
      · rw [List.eraseP_cons_of_pos (by simp [ha]), cntBy_cons]
        have : ¬ (f a == id') = true := by simp [ha]; exact fun hc => h hc.symm
        simp [this]
      · rw [List.eraseP_cons_of_neg (by simp [ha]), cntBy_cons, cntBy_cons, ih]

theorem cntBy_eraseP_le (f : α → String) (id : String) (p : α → Bool) (l : List α) :
    cntBy f id (l.eraseP p) ≤ cntBy f id l := by
  induction l with
  | nil => exact Nat.le_refl 0
  | cons a t ih =>
      by_cases ha : p a
      · rw [List.eraseP_cons_of_pos ha, cntBy_cons]
        omega
      · rw [List.eraseP_cons_of_neg ha, cntBy_cons, cntBy_cons]
        omega

theorem cntBy_insertIdx (f : α → String) (id : String) (a : α) :
    ∀ (n : Nat) (l : List α), n ≤ l.length →
    cntBy f id (l.insertIdx n a) = cntBy f id l + (if f a == id then 1 else 0)
  | 0, l, _ => by rw [List.insertIdx_zero, cntBy_cons]; omega
  | n + 1, [], h => by simp at h
  | n + 1, b :: t, h => by
      rw [List.insertIdx_succ_cons, cntBy_cons, cntBy_cons,
        cntBy_insertIdx f id a n t (by simpa using h)]
      omega

theorem cntBy_addPanel_self (pv : Paneview) (o : AddPanelOptions) (x : String)
    (h : o.id = x) :
    cntBy Panel.id x (pv.addPanel o).panels = cntBy Panel.id x pv.panels + 1 := by
  unfold Paneview.addPanel
  cases hidx : o.index with
  | none => simp [cntBy_append, cntBy_cons, cntBy_nil, h]
  | some i =>
      simp only
      rw [cntBy_insertIdx _ _ _ _ _ (Nat.min_le_right _ _)]
      simp [h]

theorem cntBy_addPanel_of_ne (pv : Paneview) (o : AddPanelOptions) (x : String)
    (h : o.id ≠ x) :
    cntBy Panel.id x (pv.addPanel o).panels = cntBy Panel.id x pv.panels := by
  unfold Paneview.addPanel
  cases hidx : o.index with
  | none => simp [cntBy_append, cntBy_cons, cntBy_nil, h]
  | some i =>
      simp only
      rw [cntBy_insertIdx _ _ _ _ _ (Nat.min_le_right _ _)]
      simp [h]

theorem getPanel_id_eq (pv : Paneview) (cardId : String) (p : Panel)
    (h : pv.getPanel cardId = some p) : p.id = cardId := by
  have := List.find?_some h
  simpa using this

theorem cntBy_pos_of_getPanel_eq_some (pv : Paneview) (cardId : String) (p : Panel)
    (h : pv.getPanel cardId = some p) : 1 ≤ cntBy Panel.id cardId pv.panels := by
  have hmem := List.mem_of_find?_eq_some h
  have hid : p.id = cardId := getPanel_id_eq pv cardId p h
  have : p ∈ pv.panels.filter (fun a => a.id == cardId) := by
    rw [List.mem_filter]
    exact ⟨hmem, by simp [hid]⟩
  have := List.length_pos_of_mem this
  simpa [cntBy] using this

theorem cntBy_removePanel_self (pv : Paneview) (cardId : String) (p : Panel)
    (h : pv.getPanel cardId = some p) :
    cntBy Panel.id cardId (pv.removePanel p).panels + 1 = cntBy Panel.id cardId pv.panels := by
  have hid : p.id = cardId := getPanel_id_eq pv cardId p h
  unfold Paneview.removePanel
  simp only [hid]
  exact cntBy_eraseP_of_find?_eq_some _ _ _ _ h

theorem cntBy_removePanel_of_ne (pv : Paneview) (p : Panel) (x : String)
    (h : x ≠ p.id) :
    cntBy Panel.id x (pv.removePanel p).panels = cntBy Panel.id x pv.panels :=
  cntBy_eraseP_of_ne _ _ _ _ h

theorem cntBy_removePanel_le (pv : Paneview) (p : Panel) (x : String) :
    cntBy Panel.id x (pv.removePanel p).panels ≤ cntBy Panel.id x pv.panels :=
  cntBy_eraseP_le _ _ _ _

/-! Counting through the registry. -/

theorem posCount_of_api_eq (s : SidebarState) (pos : Pos) (pv : Paneview) (id : String)
    (h : s.api pos = some pv) : posCount s pos id = cntBy Panel.id id pv.panels := by
  simp [posCount, h]

theorem posCount_setApi_self (s : SidebarState) (pos : Pos) (pv : Paneview) (id : String) :
    posCount (s.setApi pos pv) pos id = cntBy Panel.id id pv.panels := by
  simp [posCount]

theorem posCount_setApi_of_ne (s : SidebarState) {pos pos' : Pos} (pv : Paneview)
    (h : pos ≠ pos') (id : String) :
    posCount (s.setApi pos pv) pos' id = posCount s pos' id := by
  simp [posCount, api_setApi_of_ne s pv h]

theorem posCount_setParams (s : SidebarState) (pos pos' : Pos)
    (m : List (String × Params)) (id : String) :
    posCount (s.setParams pos m) pos' id = posCount s pos' id := by
  simp [posCount]

theorem posCount_setCardTypes (s : SidebarState) (m : List (String × String))
    (pos : Pos) (id : String) :
    posCount (s.setCardTypes m) pos id = posCount s pos id := by
  simp [posCount]

/-- Shared guard lemma: when either sidebar is unregistered or the card is
absent from the source, `moveCardToSidebar` returns `false` and the state is
untouched. -/
theorem moveCardToSidebar_guard (s : SidebarState) (cardId : String)
    (fromPos toPos : Pos) (optIndex : Option Nat)
    (h : s.api fromPos = none ∨ s.api toPos = none ∨
      (s.api fromPos).bind (fun pv => pv.getPanel cardId) = none) :
    moveCardToSidebar s cardId fromPos toPos optIndex = (s, false) := by
  unfold moveCardToSidebar
  rcases h with h | h | h
  · cases ht : s.api toPos <;> simp [h, ht]
  · cases hf : s.api fromPos <;> simp [h, hf]
  · cases hf : s.api fromPos with
    | none => cases ht : s.api toPos <;> simp [hf, ht]
    | some pv =>
        rw [hf] at h
        simp only [Option.some_bind] at h
        cases ht : s.api toPos <;> simp [hf, ht, h]

/-- C5: when the source sidebar is unregistered, the target sidebar is
unregistered, or the card id is absent from the source sidebar,
`moveCardToSidebar` returns `false` without throwing and leaves the whole
sidebar state (in particular every sidebar's panel sequence) unchanged. -/
theorem c5_move_guard_failures (s : SidebarState) (cardId : String)
    (fromPos toPos : Pos) (optIndex : Option Nat)
    (h : s.api fromPos = none ∨ s.api toPos = none ∨
      (s.api fromPos).bind (fun pv => pv.getPanel cardId) = none) :
    moveCardToSidebar s cardId fromPos toPos optIndex = (s, false) ∧
    sidebarToJSON (moveCardToSidebar s cardId fromPos toPos optIndex).1 fromPos =
      sidebarToJSON s fromPos ∧
    sidebarToJSON (moveCardToSidebar s cardId fromPos toPos optIndex).1 toPos =
      sidebarToJSON s toPos := by
  have h1 := moveCardToSidebar_guard s cardId fromPos toPos optIndex h
  exact ⟨h1, by rw [h1], by rw [h1]⟩

/-- Witness for C5 at a concrete state: the left sidebar holds one card, the
right sidebar is unregistered, so the move fails and changes nothing. -/
theorem c5_move_guard_failures_witness :
    moveCardToSidebar
      ⟨some ⟨[⟨"search", "searchType", "Search", true, some 150⟩]⟩, none, [], [], [], none⟩
      "search" .left .right none =
      (⟨some ⟨[⟨"search", "searchType", "Search", true, some 150⟩]⟩, none, [], [], [], none⟩,
        false) :=
  (c5_move_guard_failures
    ⟨some ⟨[⟨"search", "searchType", "Search", true, some 150⟩]⟩, none, [], [], [], none⟩
    "search" .left .right none (Or.inr (Or.inl rfl))).1

/-- C7: removing an absent id is a no-op on both kinds of surface:
`closePanel` on the center dock does nothing when the id is not found, and
`removeCard` on a sidebar does nothing when the given panel's id is absent
from that sidebar (or the sidebar is unregistered); the serialized output is
identical before and after. -/
theorem c7_remove_absent_noop (sd : DockState) (id : String)
    (ss : SidebarState) (pos : Pos) (panel : Panel)
    (hd : DockLayout.getPanel sd id = none)
    (hs : (ss.api pos).bind (fun pv => pv.getPanel panel.id) = none) :
    DockLayout.closePanel sd id = sd ∧
    DockLayout.toJSON (DockLayout.closePanel sd id) = DockLayout.toJSON sd ∧
    removeCard ss pos panel = ss ∧
    sidebarToJSON (removeCard ss pos panel) pos = sidebarToJSON ss pos := by
  have h1 : DockLayout.closePanel sd id = sd := by
    unfold DockLayout.closePanel
    rw [hd]
  have h2 : removeCard ss pos panel = ss := by
    unfold removeCard
    cases hapi : ss.api pos with
    | none => rfl
    | some pv =>
        rw [hapi] at hs
        simp only [Option.some_bind] at hs
        have hall : ∀ q ∈ pv.panels, ¬ (q.id == panel.id) = true := by
          rw [← List.find?_eq_none]
          exact hs
        have hre : pv.removePanel panel = pv := by
          unfold Paneview.removePanel
          rw [List.eraseP_of_forall_not hall]
        show ss.setApi pos (pv.removePanel panel) = ss
        rw [hre]
        exact setApi_eq_self ss pos pv hapi
  exact ⟨h1, by rw [h1], h2, by rw [h2]⟩

/-- Witness for C7: closing the missing panel `ghost` on a one-panel dock and
removing a card whose id is absent from the left sidebar both change nothing. -/
theorem c7_remove_absent_noop_witness :
    DockLayout.closePanel ⟨some ⟨[⟨"editor-1", "editor", "Editor"⟩]⟩, []⟩ "ghost" =
      ⟨some ⟨[⟨"editor-1", "editor", "Editor"⟩]⟩, []⟩ ∧
    removeCard
      ⟨some ⟨[⟨"search", "searchType", "Search", true, none⟩]⟩, none, [], [], [], none⟩
      .left ⟨"ghost", "g", "Ghost", true, none⟩ =
      ⟨some ⟨[⟨"search", "searchType", "Search", true, none⟩]⟩, none, [], [], [], none⟩ := by
  have h := c7_remove_absent_noop
    ⟨some ⟨[⟨"editor-1", "editor", "Editor"⟩]⟩, []⟩ "ghost"
    ⟨some ⟨[⟨"search", "searchType", "Search", true, none⟩]⟩, none, [], [], [], none⟩
    .left ⟨"ghost", "g", "Ghost", true, none⟩ (by decide) (by decide)
  exact ⟨h.1, h.2.2.1⟩

/-- C8: the sidebar drop handler invokes migration exactly when the shared
drag slot is populated with a source position different from the receiving
sidebar; with an empty slot, or a slot naming the receiving sidebar itself, it
performs no migration and leaves the state to the ordinary same-surface
handling unchanged. -/
theorem c8_drop_routing (s : SidebarState) (pos : Pos) :
    ((handleDrop s pos).2 = true ↔ ∃ d, s.drag = some d ∧ d.fromPosition ≠ pos) ∧
    (s.drag = none → handleDrop s pos = (s, false)) ∧
    (∀ d, s.drag = some d → d.fromPosition = pos → handleDrop s pos = (s, false)) := by
  cases hd : s.drag with
  | none => simp [handleDrop, hd]
  | some d =>
      by_cases hpos : d.fromPosition = pos <;> simp [handleDrop, hd, hpos]

/-- Witness for C8: a drop with an empty drag slot performs no migration and
returns the state unchanged. -/
theorem c8_drop_routing_witness :
    handleDrop ⟨some ⟨[]⟩, some ⟨[]⟩, [], [], [], none⟩ .left =
      (⟨some ⟨[]⟩, some ⟨[]⟩, [], [], [], none⟩, false) :=
  (c8_drop_routing ⟨some ⟨[]⟩, some ⟨[]⟩, [], [], [], none⟩ .left).2.1 rfl

/-- C10: a sidebar content factory is always invoked with the empty props
object, while params supplied to `addCard` are stored in the per-position
params map under the card id. -/
theorem c10_empty_props (reg : List String) (name k : String) (props : Params)
    (s : SidebarState) (pos : Pos) (type : String) (opts : AddCardOptions)
    (genId : String) (pv : Paneview) (ps : Params)
    (hcontent : sidebarCreateComponent reg name = .content k props)
    (hapi : s.api pos = some pv)
    (hnew : pv.getPanel ((opts.id).getD genId) = none)
    (hps : opts.params = some ps) :
    props = [] ∧
    ((addCard s pos type opts genId).1.params pos).lookup ((opts.id).getD genId) =
      some ps := by
  constructor
  · unfold sidebarCreateComponent at hcontent
    by_cases h1 : name ∈ reg
    · simp only [h1, if_true] at hcontent
      exact (RenderResult.content.injEq _ _ _ _).mp hcontent |>.2.symm
    · by_cases h2 : "default" ∈ reg
      · simp only [h1, h2, if_false, if_true] at hcontent
        exact (RenderResult.content.injEq _ _ _ _).mp hcontent |>.2.symm
      · simp only [h1, h2, if_false] at hcontent
        exact absurd hcontent (by simp)
  · simp only [addCard, hapi, hnew, hps]
    simp [mapSet]

/-- Witness for C10 at a concrete call: the factory result carries empty
props, and `addCard` files the supplied params under the card id. -/
theorem c10_empty_props_witness :
    (([] : Params) = []) ∧
    ((addCard ⟨some ⟨[]⟩, none, [], [], [], none⟩ .left "searchType"
        ⟨some "search", none, some [("q", "books")], none, none, none⟩ "g").1.params
      .left).lookup "search" = some [("q", "books")] :=
  c10_empty_props ["searchType"] "searchType" "searchType" []
    ⟨some ⟨[]⟩, none, [], [], [], none⟩ .left "searchType"
    ⟨some "search", none, some [("q", "books")], none, none, none⟩ "g" ⟨[]⟩
    [("q", "books")] (by decide) rfl (by decide) rfl

/-- C3 (amended): for a type with no registered content factory, the center
dock constructs a placeholder renderer with a diagnostic message instead of
throwing, while the sidebar falls back to the factory registered under
`default` when there is one and otherwise throws. -/
theorem c3_unknown_type_amended (reg : List String) (pm : List (String × Params))
    (panelId name : String) (h : name ∉ reg) :
    dockCreateComponent reg pm panelId name =
      .placeholder ("Unknown panel: " ++ name) ∧
    ("default" ∈ reg → sidebarCreateComponent reg name = .content "default" []) ∧
    ("default" ∉ reg → sidebarCreateComponent reg name =
      .thrown ("Card component not found: " ++ name)) := by
  refine ⟨?_, ?_, ?_⟩
  · simp [dockCreateComponent, h]
  · intro hdef
    simp [sidebarCreateComponent, h, hdef]
  · intro hdef
    simp [sidebarCreateComponent, h, hdef]

/-- Counterexample for C3 as stated: on a sidebar whose card map registers
nothing under the requested type and nothing under `default`, the sidebar
`createComponent` option throws instead of constructing a placeholder. -/
theorem c3_sidebar_throws_counterexample :
    sidebarCreateComponent [] "bogus" = .thrown "Card component not found: bogus" := by
  decide

/-- Witness for C3 (amended) at the concrete type `bogus`. -/
theorem c3_unknown_type_witness :
    dockCreateComponent ["outline"] [] "p1" "bogus" =
      .placeholder ("Unknown panel: " ++ "bogus") ∧
    sidebarCreateComponent ["outline"] "bogus" =
      .thrown ("Card component not found: " ++ "bogus") := by
  have h := c3_unknown_type_amended ["outline"] [] "p1" "bogus" (by decide)
  exact ⟨h.1, h.2.2 (by decide)⟩

/-- Concrete sidebar state used to exhibit the missing activation in
`addCard`: the left sidebar already holds the card `outline-1`. -/
def c4state : SidebarState :=
  ⟨some ⟨[⟨"outline-1", "outline", "Outline", true, none⟩]⟩, none,
    [("outline-1", "outline")], [], [], none⟩

/-- Counterexample for C4 as stated: `addCard` with an id that already exists
on the sidebar performs no structural change and returns the existing panel,
but it performs no activation call at all, so the existing panel is not
marked active. -/
theorem c4_addCard_no_activation_counterexample :
    addCard c4state .left "outline" ⟨some "outline-1", none, none, none, none, none⟩ "g" =
      (c4state, some ⟨"outline-1", "outline", "Outline", true, none⟩, []) ∧
    Action.setActive "outline-1" ∉
      (addCard c4state .left "outline"
        ⟨some "outline-1", none, none, none, none, none⟩ "g").2.2 := by
  decide

/-- C4 (amended): adding with an id that already exists on the surface
performs no structural change and returns the existing panel; on the center
dock the existing panel is additionally marked active via
`existing.api.setActive()`, while the sidebar `addCard` performs no
activation; and two consecutive identical dock `addPanel` calls yield exactly
one panel with the requested id, the second call returning the same panel. -/
theorem c4_add_existing_amended
    (sd : DockState) (dv : Dockview) (e : DockPanel)
    (ss : SidebarState) (pv : Paneview) (p : Panel)
    (typeD typeS : String) (optsD : DockAddOptions) (optsS : AddCardOptions)
    (gD gS : String) (pos : Pos)
    (sd2 : DockState) (dv2 : Dockview) (type2 : String) (opts2 : DockAddOptions)
    (g2 : String)
    (hD : sd.api = some dv) (hDe : dv.getPanel ((optsD.id).getD gD) = some e)
    (hS : ss.api pos = some pv) (hSe : pv.getPanel ((optsS.id).getD gS) = some p)
    (hD2 : sd2.api = some dv2)
    (hcnt : cntBy DockPanel.id ((opts2.id).getD g2) dv2.panels = 0) :
    DockLayout.addPanel sd typeD optsD gD = (sd, some e, [Action.setActive e.id]) ∧
    addCard ss pos typeS optsS gS = (ss, some p, []) ∧
    (∃ dv3, (DockLayout.addPanel sd2 type2 opts2 g2).1.api = some dv3 ∧
      cntBy DockPanel.id ((opts2.id).getD g2) dv3.panels = 1 ∧
      DockLayout.addPanel (DockLayout.addPanel sd2 type2 opts2 g2).1 type2 opts2 g2 =
        ((DockLayout.addPanel sd2 type2 opts2 g2).1,
          (DockLayout.addPanel sd2 type2 opts2 g2).2.1,
          [Action.setActive ((opts2.id).getD g2)])) := by
  refine ⟨?_, ?_, ?_⟩
  · simp only [DockLayout.addPanel, hD, hDe]
  · simp only [addCard, hS, hSe]
  · have hnone : dv2.getPanel ((opts2.id).getD g2) = none :=
      find?_eq_none_of_cntBy_eq_zero DockPanel.id _ _ hcnt
    have hfind : (dv2.addPanel
        ⟨(opts2.id).getD g2, type2, (opts2.title).getD type2⟩).getPanel
        ((opts2.id).getD g2) =
        some ⟨(opts2.id).getD g2, type2, (opts2.title).getD type2⟩ := by
      unfold Dockview.getPanel Dockview.addPanel
      unfold Dockview.getPanel at hnone
      simp [List.find?_append, hnone]
    have hcnt1 : cntBy DockPanel.id ((opts2.id).getD g2)
        (dv2.addPanel ⟨(opts2.id).getD g2, type2, (opts2.title).getD type2⟩).panels = 1 := by
      unfold Dockview.addPanel
      rw [cntBy_append, hcnt, cntBy_cons]
      simp [cntBy_nil]
    cases hp : opts2.params with
    | none =>
        have hfirst : DockLayout.addPanel sd2 type2 opts2 g2 =
            (⟨some (dv2.addPanel ⟨(opts2.id).getD g2, type2, (opts2.title).getD type2⟩),
                sd2.panelParams⟩,
              some ⟨(opts2.id).getD g2, type2, (opts2.title).getD type2⟩, []) := by
          simp only [DockLayout.addPanel, hD2, hnone, hp]
        rw [hfirst]
        exact ⟨_, rfl, hcnt1, by simp only [DockLayout.addPanel, hfind]⟩
    | some ps =>
        have hfirst : DockLayout.addPanel sd2 type2 opts2 g2 =
            (⟨some (dv2.addPanel ⟨(opts2.id).getD g2, type2, (opts2.title).getD type2⟩),
                mapSet sd2.panelParams ((opts2.id).getD g2) ps⟩,
              some ⟨(opts2.id).getD g2, type2, (opts2.title).getD type2⟩, []) := by
          simp only [DockLayout.addPanel, hD2, hnone, hp]
        rw [hfirst]
        exact ⟨_, rfl, hcnt1, by simp only [DockLayout.addPanel, hfind]⟩

/-- Witness for C4 (amended): the dock re-add of `outline-1` returns the
existing panel and activates it, the sidebar re-add returns the existing card
without activation, and a double dock add of `graph-1` leaves one panel. -/
theorem c4_add_existing_witness :
    DockLayout.addPanel ⟨some ⟨[⟨"outline-1", "outline", "Outline"⟩]⟩, []⟩ "outline"
      ⟨some "outline-1", none, none⟩ "g" =
      (⟨some ⟨[⟨"outline-1", "outline", "Outline"⟩]⟩, []⟩,
        some ⟨"outline-1", "outline", "Outline"⟩, [Action.setActive "outline-1"]) ∧
    addCard ⟨some ⟨[⟨"search", "searchType", "Search", true, none⟩]⟩, none, [], [], [], none⟩
      .left "searchType" ⟨some "search", none, none, none, none, none⟩ "g" =
      (⟨some ⟨[⟨"search", "searchType", "Search", true, none⟩]⟩, none, [], [], [], none⟩,
        some ⟨"search", "searchType", "Search", true, none⟩, []) ∧
    (∃ dv3, (DockLayout.addPanel ⟨some ⟨[]⟩, []⟩ "graph" ⟨some "graph-1", none, none⟩
        "g").1.api = some dv3 ∧
      cntBy DockPanel.id "graph-1" dv3.panels = 1 ∧
      DockLayout.addPanel
        (DockLayout.addPanel ⟨some ⟨[]⟩, []⟩ "graph" ⟨some "graph-1", none, none⟩ "g").1
        "graph" ⟨some "graph-1", none, none⟩ "g" =
        ((DockLayout.addPanel ⟨some ⟨[]⟩, []⟩ "graph" ⟨some "graph-1", none, none⟩ "g").1,
          (DockLayout.addPanel ⟨some ⟨[]⟩, []⟩ "graph" ⟨some "graph-1", none, none⟩ "g").2.1,
          [Action.setActive "graph-1"])) :=
  c4_add_existing_amended
    ⟨some ⟨[⟨"outline-1", "outline", "Outline"⟩]⟩, []⟩ ⟨[⟨"outline-1", "outline", "Outline"⟩]⟩
    ⟨"outline-1", "outline", "Outline"⟩
    ⟨some ⟨[⟨"search", "searchType", "Search", true, none⟩]⟩, none, [], [], [], none⟩
    ⟨[⟨"search", "searchType", "Search", true, none⟩]⟩ ⟨"search", "searchType", "Search", true, none⟩
    "outline" "searchType" ⟨some "outline-1", none, none⟩
    ⟨some "search", none, none, none, none, none⟩ "g" "g" .left
    ⟨some ⟨[]⟩, []⟩ ⟨[]⟩ "graph" ⟨some "graph-1", none, none⟩ "g"
    rfl (by decide) rfl (by decide) rfl (by decide)

/-- C9 (amended): unmounting and remounting a sidebar never destroys the live
paneview or removes its registry entry (the cleanup handler leaves the
registry untouched and the mount handler reattaches to the existing
instance), but the center dock's cleanup handler disposes the dockview and
clears its `window.__dockviewApi` entry. -/
theorem c9_lifecycle_amended (s : SidebarState) (pos : Pos) (pv fresh : Paneview)
    (h : s.api pos = some pv) (sd : DockState) (dv : Dockview)
    (hd : sd.api = some dv) :
    sidebarOnCleanup s = s ∧
    (sidebarOnMount (sidebarOnCleanup s) pos fresh).api pos = some pv ∧
    (DockLayout.onCleanup sd).api = none := by
  refine ⟨rfl, ?_, ?_⟩
  · simp only [sidebarOnCleanup, sidebarOnMount, h]
  · simp only [DockLayout.onCleanup, hd]

/-- Counterexample for C9 as stated: a registered center dock surface loses
its registry entry when the hosting component's cleanup runs. -/
theorem c9_dock_cleanup_counterexample :
    (⟨some ⟨[⟨"editor-1", "editor", "Editor"⟩]⟩, []⟩ : DockState).api.isSome = true ∧
    (DockLayout.onCleanup ⟨some ⟨[⟨"editor-1", "editor", "Editor"⟩]⟩, []⟩).api = none := by
  decide

/-- Witness for C9 (amended) on concrete states. -/
theorem c9_lifecycle_witness :
    sidebarOnCleanup ⟨some ⟨[]⟩, none, [], [], [], none⟩ =
      ⟨some ⟨[]⟩, none, [], [], [], none⟩ ∧
    (sidebarOnMount (sidebarOnCleanup ⟨some ⟨[]⟩, none, [], [], [], none⟩) .left
      ⟨[]⟩).api .left = some ⟨[]⟩ ∧
    (DockLayout.onCleanup ⟨some ⟨[]⟩, []⟩).api = none :=
  c9_lifecycle_amended ⟨some ⟨[]⟩, none, [], [], [], none⟩ .left ⟨[]⟩ ⟨[]⟩ rfl
    ⟨some ⟨[]⟩, []⟩ ⟨[]⟩ rfl

/-! Equations for `moveCardToSidebar` and helper facts for the uniqueness
invariants. -/

theorem moveCardToSidebar_eq_same (s : SidebarState) (cardId : String)
    (fromPos toPos : Pos) (optIndex : Option Nat) (h : fromPos = toPos) :
    moveCardToSidebar s cardId fromPos toPos optIndex = (s, false) := by
  unfold moveCardToSidebar
  rw [if_pos h]

theorem moveCardToSidebar_eq_success (s : SidebarState) (cardId : String)
    (fromPos toPos : Pos) (optIndex : Option Nat) (fromPv toPv : Paneview)
    (panel : Panel) (hne : fromPos ≠ toPos)
    (hf : s.api fromPos = some fromPv) (ht : s.api toPos = some toPv)
    (hp : fromPv.getPanel cardId = some panel) :
    moveCardToSidebar s cardId fromPos toPos optIndex =
      ((s.setApi fromPos (fromPv.removePanel panel)).setApi toPos
        (toPv.addPanel ⟨cardId, ((s.cardTypes).lookup cardId).getD cardId, cardId,
          panel.expanded, panel.size, optIndex⟩), true) := by
  simp only [moveCardToSidebar, if_neg hne, hf, ht, hp]

theorem Pos.ne_other (pos : Pos) : pos ≠ pos.other := by
  cases pos <;> decide

theorem Pos.other_ne (pos : Pos) : pos.other ≠ pos := by
  cases pos <;> decide

theorem totalCount_eq_of_ne (s : SidebarState) (a b : Pos) (hne : a ≠ b) (x : String) :
    totalCount s x = posCount s a x + posCount s b x := by
  cases a <;> cases b
  · exact absurd rfl hne
  · rfl
  · exact Nat.add_comm _ _
  · exact absurd rfl hne

theorem globalUnique_moveCard (s : SidebarState) (cardId : String)
    (fromPos toPos : Pos) (optIndex : Option Nat) (h : GlobalUnique s) :
    GlobalUnique (moveCardToSidebar s cardId fromPos toPos optIndex).1 := by
  by_cases hne : fromPos = toPos
  · rw [moveCardToSidebar_eq_same s cardId fromPos toPos optIndex hne]
    exact h
  · cases hf : s.api fromPos with
    | none =>
        rw [moveCardToSidebar_guard s cardId fromPos toPos optIndex (Or.inl hf)]
        exact h
    | some fromPv =>
        cases ht : s.api toPos with
        | none =>
            rw [moveCardToSidebar_guard s cardId fromPos toPos optIndex (Or.inr (Or.inl ht))]
            exact h
        | some toPv =>
            cases hp : fromPv.getPanel cardId with
            | none =>
                rw [moveCardToSidebar_guard s cardId fromPos toPos optIndex
                  (Or.inr (Or.inr (by rw [hf]; simpa using hp)))]
                exact h
            | some panel =>
                rw [moveCardToSidebar_eq_success s cardId fromPos toPos optIndex
                  fromPv toPv panel hne hf ht hp]
                intro x
                have hio : panel.id = cardId := getPanel_id_eq fromPv cardId panel hp
                have hne2 : toPos ≠ fromPos := fun hc => hne hc.symm
                rw [totalCount_eq_of_ne _ fromPos toPos hne x,
                  posCount_setApi_of_ne _ _ hne2 x, posCount_setApi_self,
                  posCount_setApi_self]
                have hsum := h x
                rw [totalCount_eq_of_ne s fromPos toPos hne x,
                  posCount_of_api_eq s fromPos fromPv x hf,
                  posCount_of_api_eq s toPos toPv x ht] at hsum
                by_cases hx : x = cardId
                · subst hx
                  have h1 := cntBy_removePanel_self fromPv x panel hp
                  have h2 := cntBy_addPanel_self toPv
                    ⟨x, ((s.cardTypes).lookup x).getD x, x, panel.expanded, panel.size,
                      optIndex⟩ x rfl
                  have h3 := cntBy_pos_of_getPanel_eq_some fromPv x panel hp
                  omega
                · have h1 := cntBy_removePanel_of_ne fromPv panel x (by rw [hio]; exact hx)
                  have h2 := cntBy_addPanel_of_ne toPv
                    ⟨cardId, ((s.cardTypes).lookup cardId).getD cardId, cardId,
                      panel.expanded, panel.size, optIndex⟩ x
                    (fun hc => hx hc.symm)
                  omega

theorem globalUnique_removeCard (s : SidebarState) (pos : Pos) (panel : Panel)
    (h : GlobalUnique s) : GlobalUnique (removeCard s pos panel) := by
  unfold removeCard
  cases hapi : s.api pos with
  | none => exact h
  | some pv =>
      show GlobalUnique (s.setApi pos (pv.removePanel panel))
      intro x
      have hsum := h x
      rw [totalCount_eq_of_ne s pos pos.other (Pos.ne_other pos) x,
        posCount_of_api_eq s pos pv x hapi] at hsum
      rw [totalCount_eq_of_ne _ pos pos.other (Pos.ne_other pos) x,
        posCount_setApi_self, posCount_setApi_of_ne _ _ (Pos.ne_other pos) x]
      have h1 := cntBy_removePanel_le pv panel x
      omega

theorem posCount_addCard_new (s : SidebarState) (pos pos2 : Pos) (type : String)
    (opts : AddCardOptions) (genId : String) (pv : Paneview) (x : String)
    (hapi : s.api pos2 = some pv)
    (hnew : pv.getPanel ((opts.id).getD genId) = none) :
    posCount (addCard s pos2 type opts genId).1 pos x =
      if pos = pos2 then
        cntBy Panel.id x (pv.addPanel ⟨(opts.id).getD genId, type,
          (opts.title).getD type, (opts.expanded) != some false,
          opts.size, opts.index⟩).panels
      else posCount s pos x := by
  simp only [addCard, hapi, hnew]
  by_cases hpos : pos = pos2
  · subst hpos
    rw [if_pos rfl]
    cases hp : opts.params <;> simp [posCount_setApi_self]
  · rw [if_neg hpos]
    have hne2 : pos2 ≠ pos := fun hc => hpos hc.symm
    cases hp : opts.params <;>
      simp [posCount_setApi_of_ne _ _ hne2, posCount_setCardTypes, posCount_setParams]

theorem addCard_eq_of_existing (s : SidebarState) (pos : Pos) (type : String)
    (opts : AddCardOptions) (genId : String) (pv : Paneview) (p : Panel)
    (hapi : s.api pos = some pv)
    (hex : pv.getPanel ((opts.id).getD genId) = some p) :
    addCard s pos type opts genId = (s, some p, []) := by
  simp only [addCard, hapi, hex]

theorem addCard_eq_of_unregistered (s : SidebarState) (pos : Pos) (type : String)
    (opts : AddCardOptions) (genId : String) (hapi : s.api pos = none) :
    addCard s pos type opts genId = (s, none, []) := by
  simp only [addCard, hapi]

theorem perSurfaceUnique_addCard (s : SidebarState) (pos2 : Pos) (type : String)
    (opts : AddCardOptions) (genId : String) (h : PerSurfaceUnique s) :
    PerSurfaceUnique (addCard s pos2 type opts genId).1 := by
  cases hapi : s.api pos2 with
  | none =>
      rw [addCard_eq_of_unregistered s pos2 type opts genId hapi]
      exact h
  | some pv =>
      cases hex : pv.getPanel ((opts.id).getD genId) with
      | some p =>
          rw [addCard_eq_of_existing s pos2 type opts genId pv p hapi hex]
          exact h
      | none =>
          intro pos x
          rw [posCount_addCard_new s pos pos2 type opts genId pv x hapi hex]
          by_cases hpos : pos = pos2
          · rw [if_pos hpos]
            have hz : cntBy Panel.id ((opts.id).getD genId) pv.panels = 0 :=
              cntBy_eq_zero_of_find?_eq_none _ _ _ hex
            by_cases hx : ((opts.id).getD genId) = x
            · rw [cntBy_addPanel_self pv _ x hx]
              rw [← hx, hz]
            · rw [cntBy_addPanel_of_ne pv _ x hx]
              have := h pos2 x
              rw [posCount_of_api_eq s pos2 pv x hapi] at this
              exact this
          · rw [if_neg hpos]
            exact h pos x

theorem globalUnique_addCard_other_absent (s : SidebarState) (pos2 : Pos)
    (type : String) (opts : AddCardOptions) (genId : String)
    (h : GlobalUnique s)
    (hother : posCount s pos2.other ((opts.id).getD genId) = 0) :
    GlobalUnique (addCard s pos2 type opts genId).1 := by
  cases hapi : s.api pos2 with
  | none =>
      rw [addCard_eq_of_unregistered s pos2 type opts genId hapi]
      exact h
  | some pv =>
      cases hex : pv.getPanel ((opts.id).getD genId) with
      | some p =>
          rw [addCard_eq_of_existing s pos2 type opts genId pv p hapi hex]
          exact h
      | none =>
          intro x
          rw [totalCount_eq_of_ne _ pos2 pos2.other (Pos.ne_other pos2) x,
            posCount_addCard_new s pos2 pos2 type opts genId pv x hapi hex,
            posCount_addCard_new s pos2.other pos2 type opts genId pv x hapi hex,
            if_pos rfl, if_neg (Pos.other_ne pos2)]
          have hsum := h x
          rw [totalCount_eq_of_ne s pos2 pos2.other (Pos.ne_other pos2) x,
            posCount_of_api_eq s pos2 pv x hapi] at hsum
          by_cases hx : ((opts.id).getD genId) = x
          · rw [cntBy_addPanel_self pv _ x hx]
            have hz : cntBy Panel.id ((opts.id).getD genId) pv.panels = 0 :=
              cntBy_eq_zero_of_find?_eq_none _ _ _ hex
            rw [← hx] at hsum ⊢
            rw [hz]
            omega
          · rw [cntBy_addPanel_of_ne pv _ x hx]
            omega

/-- C2 (amended): `moveCardToSidebar` and `removeCard` preserve the global
at-most-one-sidebar uniqueness of every card id (the move removes the card
from the source before adding it to the target within one call), and
`addCard` never inserts an id that its own surface already holds, preserving
per-surface uniqueness; global uniqueness survives `addCard` only under the
extra premise that the other sidebar does not hold the id, because the code
checks the target surface alone. -/
theorem c2_uniqueness_preservation (s : SidebarState) (cardId : String)
    (fromPos toPos pos pos2 pos3 : Pos) (optIndex : Option Nat) (panel : Panel)
    (type type2 : String) (opts opts2 : AddCardOptions) (genId genId2 : String) :
    (GlobalUnique s → GlobalUnique (moveCardToSidebar s cardId fromPos toPos optIndex).1) ∧
    (GlobalUnique s → GlobalUnique (removeCard s pos panel)) ∧
    (PerSurfaceUnique s → PerSurfaceUnique (addCard s pos2 type opts genId).1) ∧
    (GlobalUnique s → posCount s pos3.other ((opts2.id).getD genId2) = 0 →
      GlobalUnique (addCard s pos3 type2 opts2 genId2).1) :=
  ⟨globalUnique_moveCard s cardId fromPos toPos optIndex,
   globalUnique_removeCard s pos panel,
   perSurfaceUnique_addCard s pos2 type opts genId,
   globalUnique_addCard_other_absent s pos3 type2 opts2 genId2⟩

/-- Witness for C2 (amended): from a two-sidebar state holding only the card
`search` on the left, the move to the right and a fresh `addCard` on the left
both keep every id on at most one sidebar. -/
theorem c2_uniqueness_preservation_witness :
    GlobalUnique (moveCardToSidebar
      ⟨some ⟨[⟨"search", "searchType", "Search", true, none⟩]⟩, some ⟨[]⟩,
        [("search", "searchType")], [], [], none⟩ "search" .left .right none).1 ∧
    PerSurfaceUnique (addCard
      ⟨some ⟨[⟨"search", "searchType", "Search", true, none⟩]⟩, some ⟨[]⟩,
        [("search", "searchType")], [], [], none⟩ .left "outline"
      ⟨some "outline-1", none, none, none, none, none⟩ "g").1 := by
  have hglob : GlobalUnique
      ⟨some ⟨[⟨"search", "searchType", "Search", true, none⟩]⟩, some ⟨[]⟩,
        [("search", "searchType")], [], [], none⟩ := by
    intro x
    simp only [totalCount, posCount, SidebarState.api, cntBy_cons, cntBy_nil]
    split <;> omega
  have hper : PerSurfaceUnique
      ⟨some ⟨[⟨"search", "searchType", "Search", true, none⟩]⟩, some ⟨[]⟩,
        [("search", "searchType")], [], [], none⟩ := by
    intro pos x
    cases pos <;> simp only [posCount, SidebarState.api, cntBy_cons, cntBy_nil]
    · split <;> omega
    · omega
  exact ⟨(c2_uniqueness_preservation _ "search" .left .right .left .left .left none
      ⟨"z", "z", "z", true, none⟩ "t" "t"
      ⟨none, none, none, none, none, none⟩ ⟨none, none, none, none, none, none⟩
      "g" "g").1 hglob,
    (c2_uniqueness_preservation _ "search" .left .right .left .left .left none
      ⟨"z", "z", "z", true, none⟩ "outline" "t"
      ⟨some "outline-1", none, none, none, none, none⟩
      ⟨none, none, none, none, none, none⟩ "g" "g").2.2.1 hper⟩

/-- Initial state for the C2 counterexample: both sidebars registered and
empty. -/
def c2init : SidebarState := ⟨some ⟨[]⟩, some ⟨[]⟩, [], [], [], none⟩

/-- State reached by `addCard('left', 'searchType', {id:'search'})` followed
by `addCard('right', 'searchType', {id:'search'})`. -/
def c2state : SidebarState :=
  (addCard (addCard c2init .left "searchType"
      ⟨some "search", none, none, none, none, none⟩ "g").1
    .right "searchType" ⟨some "search", none, none, none, none, none⟩ "g").1

/-- Counterexample for C2 as stated: a reachable sequence of two `addCard`
calls puts the id `search` on both sidebars at once, because `addCard` only
checks its own surface for the id. -/
theorem c2_global_uniqueness_counterexample :
    posCount c2state .left "search" = 1 ∧ posCount c2state .right "search" = 1 ∧
    totalCount c2state "search" = 2 ∧ ¬ GlobalUnique c2state := by
  refine ⟨by decide, by decide, by decide, fun h => ?_⟩
  have hc := h "search"
  rw [show totalCount c2state "search" = 2 from by decide] at hc
  omega

theorem getPanel_addPanel_of_absent (pv : Paneview) (o : AddPanelOptions)
    (hidx : o.index = none)
    (hz : cntBy Panel.id o.id pv.panels = 0) :
    (pv.addPanel o).getPanel o.id =
      some ⟨o.id, o.component, o.title, o.isExpanded, o.size⟩ := by
  unfold Paneview.addPanel Paneview.getPanel
  rw [hidx]
  simp [List.find?_append, find?_eq_none_of_cntBy_eq_zero Panel.id o.id pv.panels hz]

/-- C6 (amended): in the genuine double-drop race the card has already left
the source surface, so the second migration aborts returning `false` with the
whole state unchanged, and the target keeps exactly one panel with the id —
no duplicate is created; the code performs no duplicate check at the target
itself, so the absence of a duplicate relies on the card no longer residing
at the source. -/
theorem c6_double_drop_amended (s : SidebarState) (cardId : String)
    (fromPos toPos : Pos) (optIndex : Option Nat) (fromPv toPv : Paneview)
    (hf : s.api fromPos = some fromPv) (ht : s.api toPos = some toPv)
    (habsent : fromPv.getPanel cardId = none)
    (hone : cntBy Panel.id cardId toPv.panels = 1) :
    moveCardToSidebar s cardId fromPos toPos optIndex = (s, false) ∧
    posCount (moveCardToSidebar s cardId fromPos toPos optIndex).1 toPos cardId = 1 := by
  have hg := moveCardToSidebar_guard s cardId fromPos toPos optIndex
    (Or.inr (Or.inr (by rw [hf]; simpa using habsent)))
  refine ⟨hg, ?_⟩
  rw [hg, posCount_of_api_eq s toPos toPv cardId ht]
  exact hone

/-- Witness for C6 (amended): the card `search` already sits on the right
sidebar only; a repeated left-to-right migration returns `false` and the
right sidebar still holds exactly one `search` panel. -/
theorem c6_double_drop_witness :
    moveCardToSidebar
      ⟨some ⟨[]⟩, some ⟨[⟨"search", "searchType", "search", true, some 150⟩]⟩,
        [("search", "searchType")], [], [], none⟩ "search" .left .right none =
      (⟨some ⟨[]⟩, some ⟨[⟨"search", "searchType", "search", true, some 150⟩]⟩,
        [("search", "searchType")], [], [], none⟩, false) ∧
    posCount (moveCardToSidebar
      ⟨some ⟨[]⟩, some ⟨[⟨"search", "searchType", "search", true, some 150⟩]⟩,
        [("search", "searchType")], [], [], none⟩ "search" .left .right none).1
      .right "search" = 1 :=
  c6_double_drop_amended
    ⟨some ⟨[]⟩, some ⟨[⟨"search", "searchType", "search", true, some 150⟩]⟩,
      [("search", "searchType")], [], [], none⟩ "search" .left .right none
    ⟨[]⟩ ⟨[⟨"search", "searchType", "search", true, some 150⟩]⟩ rfl rfl
    (by decide) (by decide)

/-- Initial state for the C6 counterexample: both sidebars registered and
empty. -/
def c6init : SidebarState := ⟨some ⟨[]⟩, some ⟨[]⟩, [], [], [], none⟩

/-- State in which the id `search` sits on both sidebars, reached by two
`addCard` calls. -/
def c6state : SidebarState :=
  (addCard (addCard c6init .left "searchType"
      ⟨some "search", none, none, none, none, none⟩ "g").1
    .right "searchType" ⟨some "search", none, none, none, none, none⟩ "g").1

/-- Counterexample for C6 as stated: starting from a reachable state in which
a panel with the migrated id already exists at the target, the migration is
not a no-op — it removes the card from the source and adds a second copy, so
the target ends with two panels carrying the id. -/
theorem c6_duplicate_counterexample :
    posCount c6state .right "search" = 1 ∧
    (moveCardToSidebar c6state "search" .left .right none).2 = true ∧
    posCount (moveCardToSidebar c6state "search" .left .right none).1
      .right "search" = 2 := by
  decide

/-- Panel used in the C1 counterexample: its title differs from its id. -/
def c1p : Panel := ⟨"search", "searchType", "Search Panel", true, some 150⟩

/-- Initial C1 state: the card lives on the left sidebar with its type
recorded in the card-type map. -/
def c1init : SidebarState :=
  ⟨some ⟨[c1p]⟩, some ⟨[]⟩, [("search", "searchType")], [], [], none⟩

/-- State after migrating `search` left-to-right and back. -/
def c1rt : SidebarState :=
  (moveCardToSidebar (moveCardToSidebar c1init "search" .left .right none).1
    "search" .right .left none).1

/-- Counterexample for C1 as stated: after the round trip the card is back on
the left sidebar with its type, expanded flag and size intact, but its title
is the card id `search`, not the original title `Search Panel`. -/
theorem c1_round_trip_counterexample :
    ((c1rt.api .left).bind (fun pv => pv.getPanel "search")) =
      some ⟨"search", "searchType", "search", true, some 150⟩ ∧
    ((c1rt.api .left).bind (fun pv => pv.getPanel "search")).map Panel.title ≠
      some c1p.title := by
  decide

/-- C1 (amended): migrating a card from sidebar A to sidebar B and back
(both sidebars registered, the card present exactly once on A, absent from B,
and its type recorded in the card-type map) succeeds twice and restores the
card to A with the same `{type, expanded, size}`; its title however is
overwritten with the card id by the migration snapshot. -/
theorem c1_move_round_trip_amended (s : SidebarState) (cardId : String)
    (A B : Pos) (pvA pvB : Paneview) (p : Panel)
    (hAB : A ≠ B)
    (hA : s.api A = some pvA) (hB : s.api B = some pvB)
    (hp : pvA.getPanel cardId = some p)
    (hone : cntBy Panel.id cardId pvA.panels = 1)
    (hBnone : pvB.getPanel cardId = none)
    (htype : (s.cardTypes).lookup cardId = some p.ptype) :
    (moveCardToSidebar s cardId A B none).2 = true ∧
    (moveCardToSidebar (moveCardToSidebar s cardId A B none).1 cardId B A none).2 =
      true ∧
    (((moveCardToSidebar (moveCardToSidebar s cardId A B none).1 cardId B A
        none).1.api A).bind (fun pv => pv.getPanel cardId)) =
      some ⟨cardId, p.ptype, cardId, p.expanded, p.size⟩ := by
  have hBA : B ≠ A := fun hc => hAB hc.symm
  have h1 := moveCardToSidebar_eq_success s cardId A B none pvA pvB p hAB hA hB hp
  rw [htype] at h1
  simp only [Option.getD_some] at h1
  rw [h1]
  refine ⟨rfl, ?_⟩
  have htB : ((s.setApi A (pvA.removePanel p)).setApi B
      (pvB.addPanel ⟨cardId, p.ptype, cardId, p.expanded, p.size, none⟩)).api B =
      some (pvB.addPanel ⟨cardId, p.ptype, cardId, p.expanded, p.size, none⟩) :=
    api_setApi_self _ _ _
  have htA : ((s.setApi A (pvA.removePanel p)).setApi B
      (pvB.addPanel ⟨cardId, p.ptype, cardId, p.expanded, p.size, none⟩)).api A =
      some (pvA.removePanel p) := by
    rw [api_setApi_of_ne _ _ hBA, api_setApi_self]
  have hzB : cntBy Panel.id cardId pvB.panels = 0 :=
    cntBy_eq_zero_of_find?_eq_none Panel.id cardId pvB.panels hBnone
  have hfindB : (pvB.addPanel
      ⟨cardId, p.ptype, cardId, p.expanded, p.size, none⟩).getPanel cardId =
      some ⟨cardId, p.ptype, cardId, p.expanded, p.size⟩ :=
    getPanel_addPanel_of_absent pvB _ rfl hzB
  have h2 := moveCardToSidebar_eq_success _ cardId B A none
    (pvB.addPanel ⟨cardId, p.ptype, cardId, p.expanded, p.size, none⟩)
    (pvA.removePanel p) ⟨cardId, p.ptype, cardId, p.expanded, p.size⟩
    hBA htB htA hfindB
  have hct : ((s.setApi A (pvA.removePanel p)).setApi B
      (pvB.addPanel ⟨cardId, p.ptype, cardId, p.expanded, p.size, none⟩)).cardTypes =
      s.cardTypes := by
    rw [cardTypes_setApi, cardTypes_setApi]
  rw [hct, htype] at h2
  simp only [Option.getD_some] at h2
  rw [h2]
  refine ⟨rfl, ?_⟩
  rw [api_setApi_self]
  have hzA : cntBy Panel.id cardId (pvA.removePanel p).panels = 0 := by
    have := cntBy_removePanel_self pvA cardId p hp
    omega
  have hfinal := getPanel_addPanel_of_absent (pvA.removePanel p)
    ⟨cardId, p.ptype, cardId, p.expanded, p.size, none⟩ rfl hzA
  simpa using hfinal

/-- Witness for C1 (amended): the concrete round trip of the `search` card
between the two registered sidebars. -/
theorem c1_move_round_trip_witness :
    (moveCardToSidebar
      ⟨some ⟨[⟨"search", "searchType", "Search Panel", true, some 150⟩]⟩, some ⟨[]⟩,
        [("search", "searchType")], [], [], none⟩ "search" .left .right none).2 = true ∧
    (moveCardToSidebar (moveCardToSidebar
      ⟨some ⟨[⟨"search", "searchType", "Search Panel", true, some 150⟩]⟩, some ⟨[]⟩,
        [("search", "searchType")], [], [], none⟩ "search" .left .right none).1
      "search" .right .left none).2 = true ∧
    (((moveCardToSidebar (moveCardToSidebar
      ⟨some ⟨[⟨"search", "searchType", "Search Panel", true, some 150⟩]⟩, some ⟨[]⟩,
        [("search", "searchType")], [], [], none⟩ "search" .left .right none).1
      "search" .right .left none).1.api .left).bind
        (fun pv => pv.getPanel "search")) =
      some ⟨"search", "searchType", "search", true, some 150⟩ :=
  c1_move_round_trip_amended
    ⟨some ⟨[⟨"search", "searchType", "Search Panel", true, some 150⟩]⟩, some ⟨[]⟩,
      [("search", "searchType")], [], [], none⟩ "search" .left .right
    ⟨[⟨"search", "searchType", "Search Panel", true, some 150⟩]⟩ ⟨[]⟩
    ⟨"search", "searchType", "Search Panel", true, some 150⟩
    (by decide) rfl rfl (by decide) (by decide) (by decide) (by decide)

end CogniStruct
